import Mathlib

/-!
Verification of the objsync distributed mutex (`mutex.go`, `provider/provider.go`).

The Go code is embedded shallowly:

* `mutexContent` (the JSON lock record) becomes `MutexContent`; the Go
  `*time.Time` field becomes `Option Int` (a Unix-nanosecond instant), and the
  Go `int64` fence becomes `Int` with explicit wrapping (`Int64.wrap`) at the
  one place the source performs arithmetic on it (`content.Fence++`).
* `json.Marshal`/`json.Unmarshal` of `mutexContent` are embedded structurally:
  `EncodedContent` is the JSON document (each field `Option`al, reflecting the
  `omitempty` tags), `marshalContent`/`unmarshalContent` the codec.  The bytes
  an adapter hands to a transform are `StoredData`: empty, a well-formed
  document, or bytes on which `json.Unmarshal` fails.
* The provider's `AtomicUpdateObject` is the single serialization point; a call
  invokes the transform once and then either commits (returning a fresh ETag),
  fails with `provider.ErrConflict`, or fails with another adapter error.  The
  part of the outcome not determined by the transform is the `AdapterDisp`
  parameter.  A transform error is propagated unchanged by the adapter
  (`provider/s3/s3.go`: `fn` error returns immediately).
* `Mutex.TryLock`, `Mutex.Unlock` and `Mutex.Lock` become `tryLock`, `unlock`
  and `lock`.  The `retry.Do` loops use `retry.Unrecoverable` on every error
  path, so `Unlock` performs exactly one adapter call; `Lock` retries only the
  not-acquired outcome and is modelled on an explicit list of attempt
  environments, the list running out standing for the caller's cancellation.
-/

namespace Objsync

/-- Equality of `Except` values is decidable when it is on both sides. -/
instance {ε α : Type} [DecidableEq ε] [DecidableEq α] : DecidableEq (Except ε α) := fun a b =>
  match a, b with
  | .error x, .error y =>
    if h : x = y then .isTrue (by subst h; rfl) else .isFalse (by simp [h])
  | .error _, .ok _ => .isFalse (by simp)
  | .ok _, .error _ => .isFalse (by simp)
  | .ok x, .ok y =>
    if h : x = y then .isTrue (by subst h; rfl) else .isFalse (by simp [h])

/-- Signed 64-bit wrap-around, the semantics of Go `int64` arithmetic. -/
def Int64.wrap (x : Int) : Int := (x + 2 ^ 63) % 2 ^ 64 - 2 ^ 63

/-- Largest value of a Go `int64`. -/
def Int64.max : Int := 2 ^ 63 - 1

/-- Smallest value of a Go `int64`. -/
def Int64.min : Int := -(2 ^ 63)

/-- The decoded lock record: Go struct `mutexContent` (mutex.go lines 34-38).
`ID` is the holder identity, `Expires` the absolute expiry instant in Unix
nanoseconds (`nil` pointer = `none`), `Fence` the fencing counter. -/
structure MutexContent where
  ID : String
  Expires : Option Int
  Fence : Int
deriving Repr, DecidableEq

/-- The Go zero value of `mutexContent`: what `var content mutexContent`
declares before any unmarshalling. -/
def zeroContent : MutexContent := { ID := "", Expires := none, Fence := 0 }

/-- The persisted JSON document for `mutexContent`.  Every field carries
`omitempty`: `ID` is omitted when `""`, `Expires` when the pointer is `nil`,
`Fence` when `0`; an omitted field is `none` here. -/
structure EncodedContent where
  idField : Option String
  expiresField : Option Int
  fenceField : Option Int
deriving Repr, DecidableEq

/-- `json.Marshal` of a `mutexContent`, per the struct tags
`json:"id,omitempty"`, `json:"expires,omitempty"`, `json:"fence,omitempty"`. -/
def marshalContent (c : MutexContent) : EncodedContent :=
  { idField := if c.ID = "" then none else some c.ID
    expiresField := c.Expires
    fenceField := if c.Fence = 0 then none else some c.Fence }

/-- `json.Unmarshal` of a well-formed document into `mutexContent`: a missing
field leaves the Go zero value in place. -/
def unmarshalContent (e : EncodedContent) : MutexContent :=
  { ID := e.idField.getD ""
    Expires := e.expiresField
    Fence := e.fenceField.getD 0 }

/-- The object bytes an `AtomicUpdateObject` call hands to its transform:
absent object / empty bytes, a well-formed JSON document, or bytes on which
`json.Unmarshal` errors. -/
inductive StoredData where
  | empty : StoredData
  | valid : EncodedContent → StoredData
  | malformed : StoredData
deriving Repr, DecidableEq

/-- Errors a transform returns to the adapter: a `json.Unmarshal` failure, the
`errLockHeld` sentinel of `TryLock`, or `provider.ErrConflict` raised by
`Unlock`'s transform on an ETag mismatch. -/
inductive TransformErr where
  | decodeErr : TransformErr
  | lockHeld : TransformErr
  | conflict : TransformErr
deriving Repr, DecidableEq

/-- Decoding step shared by both transforms: `var content mutexContent`
followed by `if len(currentData) > 0 { json.Unmarshal ... }`. -/
def decodeStored : StoredData → Except TransformErr MutexContent
  | .empty => .ok zeroContent
  | .valid e => .ok (unmarshalContent e)
  | .malformed => .error .decodeErr

/-- The held test of `TryLock`'s transform (mutex.go line 138):
`content.Expires != nil && !time.Now().After(*content.Expires)`.  In the
source the test sits inside the `len(currentData) > 0` branch; on empty data
`Expires` is `nil` so applying it uniformly is equivalent. -/
def isHeldNow (now : Int) (c : MutexContent) : Bool :=
  match c.Expires with
  | none => false
  | some e => !(now > e)

/-- The transform `TryLock` passes to `AtomicUpdateObject` (mutex.go lines
131-151): decode, fail with `errLockHeld` if still held, otherwise stamp the
caller's identity, set `Expires := now + expiresIn`, increment `Fence` (Go
`int64` increment, hence wrapping) and marshal.  The second component of the
result is the captured `newFencingToken`. -/
def tryLockTransform (muID : String) (now expiresIn : Int) (d : StoredData) :
    Except TransformErr (EncodedContent × Int) :=
  match decodeStored d with
  | .error e => .error e
  | .ok content =>
    if isHeldNow now content then
      .error .lockHeld
    else
      let c : MutexContent :=
        { ID := muID
          Expires := some (now + expiresIn)
          Fence := Int64.wrap (content.Fence + 1) }
      .ok (marshalContent c, c.Fence)

/-- The transform `Unlock` passes to `AtomicUpdateObject` (mutex.go lines
85-102): raise `provider.ErrConflict` when the read ETag differs from the
handle's, otherwise decode and clear `ID` and `Expires`, leaving `Fence`
as read, and marshal. -/
def unlockTransform (muETag currentETag : String) (d : StoredData) :
    Except TransformErr EncodedContent :=
  if currentETag ≠ muETag then
    .error .conflict
  else
    match decodeStored d with
    | .error e => .error e
    | .ok content => .ok (marshalContent { content with ID := "", Expires := none })

/-- The adapter-side outcome of the conditional write, after the transform has
produced new bytes: committed with a fresh ETag, lost the version-tag race
(`provider.ErrConflict`), or failed with some other adapter error. -/
inductive AdapterDisp where
  | ok : String → AdapterDisp
  | conflict : AdapterDisp
  | fail : AdapterDisp
deriving Repr, DecidableEq

/-- Errors as the mutex code distinguishes them after an adapter call. -/
inductive GoErr where
  | conflict : GoErr
  | lockHeld : GoErr
  | decodeErr : GoErr
  | adapterErr : GoErr
  | ctxErr : GoErr
deriving Repr, DecidableEq

/-- Reinterpret a transform error as the error the adapter call returns, the
adapter propagating transform errors unchanged. -/
def TransformErr.toGoErr : TransformErr → GoErr
  | .decodeErr => .decodeErr
  | .lockHeld => .lockHeld
  | .conflict => .conflict

/-- The error, if any, that the `AtomicUpdateObject` call itself reports,
given the transform's result and the adapter's disposition. -/
def adapterErrOf {α : Type} (tres : Except TransformErr α) (disp : AdapterDisp) :
    Option GoErr :=
  match tres with
  | .error te => some te.toGoErr
  | .ok _ =>
    match disp with
    | .ok _ => none
    | .conflict => some .conflict
    | .fail => some .adapterErr

/-- The handle state of a `Mutex` that the lock protocol reads and writes:
its random identity and the ETag of its last successful acquisition. -/
structure MutexState where
  id : String
  etag : String
deriving Repr, DecidableEq

/-- Everything observable about one `TryLock` call: the three return values,
the handle state after the call, and the bytes the adapter committed
(`none` when no write happened). -/
structure TryLockResult where
  acquired : Bool
  token : Int
  err : Option GoErr
  state : MutexState
  written : Option EncodedContent
deriving Repr, DecidableEq

/-- `Mutex.TryLock` (mutex.go lines 127-163).  `d` is the stored bytes the
single adapter call reads, `now` the evaluation instant of the transform,
`disp` the adapter's disposition for the conditional write. -/
def tryLock (mu : MutexState) (now expiresIn : Int) (d : StoredData)
    (disp : AdapterDisp) : TryLockResult :=
  match tryLockTransform mu.id now expiresIn d with
  | .error .lockHeld =>
    { acquired := false, token := -1, err := none, state := mu, written := none }
  | .error .conflict =>
    { acquired := false, token := -1, err := none, state := mu, written := none }
  | .error .decodeErr =>
    { acquired := false, token := -1, err := some .decodeErr, state := mu,
      written := none }
  | .ok (newData, newFencingToken) =>
    match disp with
    | .ok newETag =>
      { acquired := true, token := newFencingToken, err := none,
        state := { mu with etag := newETag }, written := some newData }
    | .conflict =>
      { acquired := false, token := -1, err := none, state := mu, written := none }
    | .fail =>
      { acquired := false, token := -1, err := some .adapterErr, state := mu,
        written := none }

/-- Everything observable about one `Unlock` call: the returned error, the
handle state after the call, the committed bytes, and whether the adapter was
called at all. -/
structure UnlockResult where
  err : Option GoErr
  state : MutexState
  written : Option EncodedContent
  adapterCalled : Bool
deriving Repr, DecidableEq

/-- The body of `Unlock`'s single `retry.Do` iteration plus the epilogue
(`mu.etag = ""` after a `nil` result): a `provider.ErrConflict` outcome —
whether the transform's own ETag test or the adapter's lost write race —
is swallowed and the ETag still cleared; any other error is returned with
the handle untouched. -/
def unlockOnce (mu : MutexState) (currentETag : String) (d : StoredData)
    (disp : AdapterDisp) : UnlockResult :=
  match unlockTransform mu.etag currentETag d with
  | .error .conflict =>
    { err := none, state := { mu with etag := "" }, written := none,
      adapterCalled := true }
  | .error .decodeErr =>
    { err := some .decodeErr, state := mu, written := none,
      adapterCalled := true }
  | .error .lockHeld =>
    { err := some .lockHeld, state := mu, written := none,
      adapterCalled := true }
  | .ok newData =>
    match disp with
    | .ok _ =>
      { err := none, state := { mu with etag := "" }, written := some newData,
        adapterCalled := true }
    | .conflict =>
      { err := none, state := { mu with etag := "" }, written := none,
        adapterCalled := true }
    | .fail =>
      { err := some .adapterErr, state := mu, written := none,
        adapterCalled := true }

/-- `Mutex.Unlock` (mutex.go lines 81-124).  With `mu.etag == ""` it returns
at once with no adapter call; otherwise exactly one adapter call is made
(every error path inside the `retry.Do` closure is `nil` or
`Unrecoverable`, so the loop runs once). -/
def unlock (mu : MutexState) (currentETag : String) (d : StoredData)
    (disp : AdapterDisp) : UnlockResult :=
  if mu.etag = "" then
    { err := none, state := mu, written := none, adapterCalled := false }
  else
    unlockOnce mu currentETag d disp

/-- The environment one `TryLock` attempt inside `Lock`'s retry loop runs in:
the stored bytes its adapter call reads, the instant its transform evaluates
at, and the adapter's disposition. -/
structure Attempt where
  d : StoredData
  now : Int
  disp : AdapterDisp
deriving Repr, DecidableEq

/-- `Mutex.Lock` (mutex.go lines 52-78): call `TryLock` until it acquires,
returning `(-1, err)` on the first `TryLock` error (`retry.Unrecoverable`)
and `(fencingToken, nil)` on acquisition.  The attempt list running out is
the caller's context cancelling the unbounded retry loop, on which `retry.Do`
reports the context error. -/
def lock (mu : MutexState) (expiresIn : Int) :
    List Attempt → Int × Option GoErr × MutexState
  | [] => (-1, some .ctxErr, mu)
  | a :: rest =>
    let r := tryLock mu a.now expiresIn a.d a.disp
    match r.err with
    | some e => (-1, some e, r.state)
    | none =>
      if r.acquired then (r.token, none, r.state)
      else lock mu expiresIn rest

/-- The spec's held predicate, stated from its words for comparison with the
source's `isHeldNow`: a record is held iff `holder` is non-empty AND
`expiresAt` is strictly in the future. -/
def specHeld (now : Int) (c : MutexContent) : Bool :=
  decide (c.ID ≠ "") && (match c.Expires with | none => false | some e => decide (now < e))

end Objsync
namespace Objsync

/-- Marshalling a record and unmarshalling the result restores the record:
each field omitted by `omitempty` decodes back to the very zero value whose
presence caused the omission. -/
theorem unmarshal_marshal (c : MutexContent) : unmarshalContent (marshalContent c) = c := by
  rcases c with ⟨id, exp, f⟩
  by_cases hid : id = "" <;> by_cases hf : f = 0 <;>
    simp [marshalContent, unmarshalContent, hid, hf]

/-- Wrapping is the identity on values already inside the int64 range. -/
theorem wrap_eq_self {x : Int} (h1 : Int64.min ≤ x) (h2 : x ≤ Int64.max) :
    Int64.wrap x = x := by
  unfold Int64.wrap Int64.min Int64.max at *
  omega

/-- C9: encoding then decoding a LockRecord with arbitrary holder, expiry and
fence values yields an identical record, and absent-object (empty bytes)
decoding yields the zero-value record: empty holder, no expiry, fence 0. -/
theorem C9_record_roundtrip :
    (∀ c : MutexContent, unmarshalContent (marshalContent c) = c) ∧
    decodeStored StoredData.empty = Except.ok zeroContent ∧
    zeroContent = { ID := "", Expires := none, Fence := 0 } :=
  ⟨unmarshal_marshal, rfl, rfl⟩

/-- C8: on every stored record on which the LockHeld condition fires, TryLock
returns acquired false with no error, leaves the handle untouched, and
commits no write, so the stored record (its fence included) is unchanged. -/
theorem C8_held_no_mutation :
    ∀ (mu : MutexState) (now expiresIn : Int) (d : StoredData) (c : MutexContent)
      (disp : AdapterDisp),
      decodeStored d = Except.ok c → isHeldNow now c = true →
      tryLock mu now expiresIn d disp =
        { acquired := false, token := -1, err := none, state := mu, written := none } := by
  intro mu now expiresIn d c disp hd hH
  simp [tryLock, tryLockTransform, hd, hH]

theorem C8_witness :
    decodeStored (StoredData.valid ⟨some "x", some 10, some 3⟩) =
      Except.ok { ID := "x", Expires := some 10, Fence := 3 } ∧
    isHeldNow 0 { ID := "x", Expires := some 10, Fence := 3 } = true ∧
    tryLock ⟨"me", ""⟩ 0 7 (StoredData.valid ⟨some "x", some 10, some 3⟩)
        (AdapterDisp.ok "e") =
      { acquired := false, token := -1, err := none, state := ⟨"me", ""⟩, written := none } :=
  ⟨by decide, by decide,
    C8_held_no_mutation ⟨"me", ""⟩ 0 7 _ ⟨"x", some 10, 3⟩ (AdapterDisp.ok "e")
      (by decide) (by decide)⟩

/-- C3 fails as stated: on a record with an empty holder but an unexpired
expiry timestamp the transform still signals LockHeld, although the claim's
held predicate (holder non-empty AND expiry in the future) is false there. -/
theorem C3_counterexample :
    tryLockTransform "me" 5 100 (StoredData.valid ⟨none, some 10, none⟩) =
      Except.error TransformErr.lockHeld ∧
    (unmarshalContent ⟨none, some 10, none⟩).ID = "" ∧
    specHeld 5 (unmarshalContent ⟨none, some 10, none⟩) = false := by decide

/-- C3 amended: the transform signals LockHeld (and writes nothing) exactly
when the decoded record's expiry is present and the evaluation instant is not
strictly after it, regardless of the holder field; in particular a record
whose expiry has strictly passed (or a record with no expiry) is acquired
without any prior cleanup write. -/
theorem C3_lockHeld_iff_expiry_not_passed :
    ∀ (muID : String) (now expiresIn : Int) (d : StoredData) (c : MutexContent),
      decodeStored d = Except.ok c →
      ((tryLockTransform muID now expiresIn d = Except.error TransformErr.lockHeld ↔
          isHeldNow now c = true) ∧
        (isHeldNow now c = true ↔ ∃ e, c.Expires = some e ∧ now ≤ e) ∧
        (isHeldNow now c = false →
          ∃ out tok, tryLockTransform muID now expiresIn d = Except.ok (out, tok))) := by
  intro muID now expiresIn d c hd
  refine ⟨?_, ?_, ?_⟩
  · by_cases hH : isHeldNow now c <;> simp [tryLockTransform, hd, hH]
  · rcases hE : c.Expires with _ | e <;> simp [isHeldNow, hE]
  · intro hH
    exact ⟨marshalContent ⟨muID, some (now + expiresIn), Int64.wrap (c.Fence + 1)⟩,
      Int64.wrap (c.Fence + 1), by simp [tryLockTransform, hd, hH]⟩

theorem C3_witness :
    decodeStored (StoredData.valid ⟨none, some 10, none⟩) =
      Except.ok { ID := "", Expires := some 10, Fence := 0 } ∧
    (tryLockTransform "me" 5 100 (StoredData.valid ⟨none, some 10, none⟩) =
        Except.error TransformErr.lockHeld ↔
      isHeldNow 5 { ID := "", Expires := some 10, Fence := 0 } = true) :=
  ⟨by decide,
    (C3_lockHeld_iff_expiry_not_passed "me" 5 100 _ ⟨"", some 10, 0⟩ (by decide)).1⟩

end Objsync
namespace Objsync

/-- C2 fails as stated: a successful acquisition over a stored fence of
2^63 - 1 (the largest int64) writes fence -2^63, which is neither one greater
than the fence read nor larger than it. -/
theorem C2_counterexample :
    tryLockTransform "me" 0 5 (StoredData.valid ⟨none, none, some Int64.max⟩) =
      Except.ok (⟨some "me", some 5, some Int64.min⟩, Int64.min) ∧
    (unmarshalContent ⟨none, none, some Int64.max⟩).Fence = Int64.max ∧
    Int64.min ≠ Int64.max + 1 ∧ Int64.min < Int64.max := by decide

/-- C2 amended: every successful TryLock writes and returns the read fence
incremented by one as a wrapping signed 64-bit integer — exactly one greater,
hence strictly greater, whenever the read fence is an int64 value below the
maximum — and Unlock never changes the fence; so fences strictly increase and
no value repeats as long as the counter stays below 2^63 - 1. -/
theorem C2_fence_wrapping_increment :
    (∀ (muID : String) (now expiresIn : Int) (d : StoredData) (c : MutexContent)
        (out : EncodedContent) (tok : Int),
      decodeStored d = Except.ok c →
      tryLockTransform muID now expiresIn d = Except.ok (out, tok) →
        tok = Int64.wrap (c.Fence + 1) ∧
        (unmarshalContent out).Fence = tok ∧
        (Int64.min ≤ c.Fence → c.Fence < Int64.max →
          tok = c.Fence + 1 ∧ c.Fence < tok)) ∧
    (∀ (muETag currentETag : String) (d : StoredData) (c : MutexContent)
        (out : EncodedContent),
      decodeStored d = Except.ok c →
      unlockTransform muETag currentETag d = Except.ok out →
        (unmarshalContent out).Fence = c.Fence) := by
  constructor
  · intro muID now expiresIn d c out tok hd hok
    by_cases hH : isHeldNow now c <;> simp [tryLockTransform, hd, hH] at hok
    obtain ⟨hout, htok⟩ := hok
    subst hout htok
    refine ⟨rfl, ?_, ?_⟩
    · rw [unmarshal_marshal]
    · intro h1 h2
      have hw : Int64.wrap (c.Fence + 1) = c.Fence + 1 := by
        apply wrap_eq_self
        · unfold Int64.min at h1 ⊢
          omega
        · unfold Int64.max at h2 ⊢
          omega
      omega
  · intro muETag currentETag d c out hd hok
    by_cases he : currentETag ≠ muETag <;> simp [unlockTransform, hd, he] at hok
    subst hok
    rw [unmarshal_marshal]

theorem C2_witness :
    decodeStored StoredData.empty = Except.ok zeroContent ∧
    tryLockTransform "me" 0 7 StoredData.empty =
      Except.ok (⟨some "me", some 7, some 1⟩, 1) ∧
    (1 : Int) = Int64.wrap (zeroContent.Fence + 1) ∧ zeroContent.Fence < 1 := by
  refine ⟨by decide, by decide, ?_, ?_⟩
  · exact (C2_fence_wrapping_increment.1 "me" 0 7 StoredData.empty zeroContent
      ⟨some "me", some 7, some 1⟩ 1 (by decide) (by decide)).1
  · exact ((C2_fence_wrapping_increment.1 "me" 0 7 StoredData.empty zeroContent
      ⟨some "me", some 7, some 1⟩ 1 (by decide) (by decide)).2.2 (by decide) (by decide)).2

/-- C4 fails as stated: with a stored fence of 2^63 - 1 a successful TryLock
returns token -2^63 and writes that fence, which is not the read fence plus
one. -/
theorem C4_counterexample :
    tryLock ⟨"me", ""⟩ 0 5 (StoredData.valid ⟨none, none, some Int64.max⟩)
        (AdapterDisp.ok "e2") =
      { acquired := true, token := Int64.min, err := none, state := ⟨"me", "e2"⟩,
        written := some ⟨some "me", some 5, some Int64.min⟩ } ∧
    (unmarshalContent ⟨none, none, some Int64.max⟩).Fence = Int64.max ∧
    Int64.min ≠ Int64.max + 1 := by decide

/-- C4 amended: when TryLock succeeds it writes the read record with holder
set to the handle's identity, expiry set to now plus the lease length, and
fence incremented by one as a wrapping signed 64-bit integer (exactly plus
one whenever the read fence is an int64 value below the maximum); it returns
acquired true with that fence, and stores the adapter's version tag on the
handle. -/
theorem C4_success_postcondition :
    ∀ (mu : MutexState) (now expiresIn : Int) (d : StoredData) (c : MutexContent)
      (newETag : String),
      decodeStored d = Except.ok c → isHeldNow now c = false →
      (tryLock mu now expiresIn d (AdapterDisp.ok newETag) =
        { acquired := true, token := Int64.wrap (c.Fence + 1), err := none,
          state := { id := mu.id, etag := newETag },
          written := some (marshalContent
            { ID := mu.id, Expires := some (now + expiresIn),
              Fence := Int64.wrap (c.Fence + 1) }) }) ∧
      (Int64.min ≤ c.Fence → c.Fence < Int64.max →
        Int64.wrap (c.Fence + 1) = c.Fence + 1) := by
  intro mu now expiresIn d c newETag hd hH
  constructor
  · simp [tryLock, tryLockTransform, hd, hH]
  · intro h1 h2
    apply wrap_eq_self
    · unfold Int64.min at h1 ⊢
      omega
    · unfold Int64.max at h2 ⊢
      omega

theorem C4_witness :
    decodeStored StoredData.empty = Except.ok zeroContent ∧
    isHeldNow 0 zeroContent = false ∧
    tryLock ⟨"me", ""⟩ 0 7 StoredData.empty (AdapterDisp.ok "e1") =
      { acquired := true, token := Int64.wrap (zeroContent.Fence + 1), err := none,
        state := { id := "me", etag := "e1" },
        written := some (marshalContent
          { ID := "me", Expires := some (0 + 7),
            Fence := Int64.wrap (zeroContent.Fence + 1) }) } :=
  ⟨by decide, by decide,
    (C4_success_postcondition ⟨"me", ""⟩ 0 7 StoredData.empty zeroContent "e1"
      (by decide) (by decide)).1⟩

/-- C5: TryLock reports not-acquired with no error exactly when the adapter
call fails with LockHeld or Conflict, and on every other adapter-call failure
(a decode failure included) it returns that error unchanged. -/
theorem C5_contention_vs_fatal :
    ∀ (mu : MutexState) (now expiresIn : Int) (d : StoredData) (disp : AdapterDisp),
      ((tryLock mu now expiresIn d disp).acquired = false ∧
          (tryLock mu now expiresIn d disp).err = none ↔
        adapterErrOf (tryLockTransform mu.id now expiresIn d) disp = some GoErr.lockHeld ∨
        adapterErrOf (tryLockTransform mu.id now expiresIn d) disp = some GoErr.conflict) ∧
      (tryLock mu now expiresIn d disp).err =
        (if adapterErrOf (tryLockTransform mu.id now expiresIn d) disp = some GoErr.lockHeld ∨
            adapterErrOf (tryLockTransform mu.id now expiresIn d) disp = some GoErr.conflict
          then none
          else adapterErrOf (tryLockTransform mu.id now expiresIn d) disp) := by
  intro mu now expiresIn d disp
  rcases htr : tryLockTransform mu.id now expiresIn d with te | pr
  · cases te <;> simp [tryLock, adapterErrOf, htr, TransformErr.toGoErr]
  · rcases pr with ⟨out, tok⟩
    cases disp <;> simp [tryLock, adapterErrOf, htr]

end Objsync
namespace Objsync

/-- C6: Unlock's transform signals Conflict and writes nothing when the read
version tag differs from the handle's; when the tags match it writes the read
record with holder and expiry cleared and the fence exactly as read. -/
theorem C6_unlock_transform_shape :
    ∀ (muETag currentETag : String) (d : StoredData),
      (currentETag ≠ muETag →
        unlockTransform muETag currentETag d = Except.error TransformErr.conflict) ∧
      (∀ c : MutexContent, currentETag = muETag → decodeStored d = Except.ok c →
        unlockTransform muETag currentETag d =
          Except.ok (marshalContent { ID := "", Expires := none, Fence := c.Fence }) ∧
        (unmarshalContent
            (marshalContent { ID := "", Expires := none, Fence := c.Fence })).Fence =
          c.Fence) := by
  intro muETag currentETag d
  constructor
  · intro hne
    simp [unlockTransform, hne]
  · intro c heq hd
    subst heq
    refine ⟨by simp [unlockTransform, hd], ?_⟩
    rw [unmarshal_marshal]

theorem C6_witness :
    ((("b" : String) ≠ "a") ∧
      unlockTransform "a" "b" (StoredData.valid ⟨some "x", some 10, some 3⟩) =
        Except.error TransformErr.conflict) ∧
    (decodeStored (StoredData.valid ⟨some "x", some 10, some 3⟩) =
        Except.ok { ID := "x", Expires := some 10, Fence := 3 } ∧
      unlockTransform "a" "a" (StoredData.valid ⟨some "x", some 10, some 3⟩) =
        Except.ok (marshalContent { ID := "", Expires := none, Fence := 3 })) :=
  ⟨⟨by decide,
      (C6_unlock_transform_shape "a" "b"
        (StoredData.valid ⟨some "x", some 10, some 3⟩)).1 (by decide)⟩,
    ⟨by decide,
      ((C6_unlock_transform_shape "a" "a"
        (StoredData.valid ⟨some "x", some 10, some 3⟩)).2 ⟨"x", some 10, 3⟩ rfl
        (by decide)).1⟩⟩

/-- C7: Unlock with an empty stored version tag is a no-op making no adapter
call; otherwise a Conflict outcome is swallowed (no error, tag cleared), any
other adapter-call error is returned with the handle left untouched, and on
success the tag is cleared with no error. -/
theorem C7_unlock_error_handling :
    ∀ (mu : MutexState) (currentETag : String) (d : StoredData) (disp : AdapterDisp),
      (mu.etag = "" →
        unlock mu currentETag d disp =
          { err := none, state := mu, written := none, adapterCalled := false }) ∧
      (mu.etag ≠ "" →
        (adapterErrOf (unlockTransform mu.etag currentETag d) disp = some GoErr.conflict →
          (unlock mu currentETag d disp).err = none ∧
          (unlock mu currentETag d disp).state.etag = "") ∧
        (∀ g : GoErr, adapterErrOf (unlockTransform mu.etag currentETag d) disp = some g →
          g ≠ GoErr.conflict →
          (unlock mu currentETag d disp).err = some g ∧
          (unlock mu currentETag d disp).state = mu) ∧
        (adapterErrOf (unlockTransform mu.etag currentETag d) disp = none →
          (unlock mu currentETag d disp).err = none ∧
          (unlock mu currentETag d disp).state.etag = "")) := by
  intro mu currentETag d disp
  constructor
  · intro h
    simp [unlock, h]
  · intro hne
    have hu : unlock mu currentETag d disp = unlockOnce mu currentETag d disp := by
      simp [unlock, hne]
    rcases htr : unlockTransform mu.etag currentETag d with te | out
    · cases te <;>
        simp [hu, unlockOnce, adapterErrOf, htr, TransformErr.toGoErr]
    · cases disp <;>
        simp [hu, unlockOnce, adapterErrOf, htr]

theorem C7_witness :
    (unlock ⟨"me", ""⟩ "x" StoredData.empty AdapterDisp.fail =
      { err := none, state := ⟨"me", ""⟩, written := none, adapterCalled := false }) ∧
    (adapterErrOf (unlockTransform "a" "b"
        (StoredData.valid ⟨some "x", some 10, some 3⟩)) (AdapterDisp.ok "e") =
      some GoErr.conflict ∧
      (unlock ⟨"me", "a"⟩ "b" (StoredData.valid ⟨some "x", some 10, some 3⟩)
        (AdapterDisp.ok "e")).err = none) :=
  ⟨(C7_unlock_error_handling ⟨"me", ""⟩ "x" StoredData.empty AdapterDisp.fail).1 rfl,
    by decide,
    ((C7_unlock_error_handling ⟨"me", "a"⟩ "b"
        (StoredData.valid ⟨some "x", some 10, some 3⟩) (AdapterDisp.ok "e")).2
      (by decide)).1 (by decide) |>.1⟩

/-- C10: whenever TryLock does not acquire the lock it returns token -1 with
the handle state unchanged, an erroring TryLock never reports acquired, and
Lock returns token -1 whenever it returns an error. -/
theorem C10_not_acquired_frame :
    (∀ (mu : MutexState) (now expiresIn : Int) (d : StoredData) (disp : AdapterDisp),
      (tryLock mu now expiresIn d disp).acquired = false →
        (tryLock mu now expiresIn d disp).token = -1 ∧
        (tryLock mu now expiresIn d disp).state = mu) ∧
    (∀ (mu : MutexState) (now expiresIn : Int) (d : StoredData) (disp : AdapterDisp)
        (g : GoErr),
      (tryLock mu now expiresIn d disp).err = some g →
        (tryLock mu now expiresIn d disp).acquired = false) ∧
    (∀ (mu : MutexState) (expiresIn : Int) (attempts : List Attempt) (g : GoErr),
      (lock mu expiresIn attempts).2.1 = some g →
        (lock mu expiresIn attempts).1 = -1) := by
  refine ⟨?_, ?_, ?_⟩
  · intro mu now expiresIn d disp hacq
    rcases htr : tryLockTransform mu.id now expiresIn d with te | pr
    · cases te <;> simp [tryLock, htr]
    · rcases pr with ⟨out, tok⟩
      cases disp <;> simp [tryLock, htr] at hacq ⊢
  · intro mu now expiresIn d disp g herr
    rcases htr : tryLockTransform mu.id now expiresIn d with te | pr
    · cases te <;> simp [tryLock, htr]
    · rcases pr with ⟨out, tok⟩
      cases disp <;> simp [tryLock, htr] at herr ⊢
  · intro mu expiresIn attempts
    induction attempts with
    | nil => intro g h; rfl
    | cons a rest ih =>
      intro g h
      by_cases herr : ∃ e, (tryLock mu a.now expiresIn a.d a.disp).err = some e
      · obtain ⟨e, he⟩ := herr
        simp [lock, he]
      · push_neg at herr
        have hnone : (tryLock mu a.now expiresIn a.d a.disp).err = none := by
          rcases hcase : (tryLock mu a.now expiresIn a.d a.disp).err with _ | e
          · rfl
          · exact absurd hcase (herr e)
        by_cases hacq : (tryLock mu a.now expiresIn a.d a.disp).acquired
        · simp [lock, hnone, hacq] at h
        · have hl : lock mu expiresIn (a :: rest) = lock mu expiresIn rest := by
            simp [lock, hnone, hacq]
          rw [hl] at h ⊢
          exact ih g h

theorem C10_witness :
    ((tryLock ⟨"me", ""⟩ 0 7 StoredData.empty AdapterDisp.conflict).acquired = false ∧
      (tryLock ⟨"me", ""⟩ 0 7 StoredData.empty AdapterDisp.conflict).token = -1 ∧
      (tryLock ⟨"me", ""⟩ 0 7 StoredData.empty AdapterDisp.conflict).state = ⟨"me", ""⟩) ∧
    ((lock ⟨"me", ""⟩ 7 []).2.1 = some GoErr.ctxErr ∧ (lock ⟨"me", ""⟩ 7 []).1 = -1) :=
  ⟨⟨by decide,
      C10_not_acquired_frame.1 ⟨"me", ""⟩ 0 7 StoredData.empty AdapterDisp.conflict
        (by decide)⟩,
    by decide,
    C10_not_acquired_frame.2.2 ⟨"me", ""⟩ 7 [] GoErr.ctxErr (by decide)⟩

end Objsync
